import Mathlib

/-!
# TRIFIX backend (`src/backend.js`)

A shallow embedding of the Express route handlers of `backend.js` and of the
part of MySQL, bcrypt, jsonwebtoken and multer they rely on.

* A handler is a function from the store, the request and the environment of
  the request to an `Outcome`: the store afterwards, the statements passed to
  `db.query` (in order) and the responses written to `res` (in order).  A
  handler whose promise is rejected without a `catch` writes no response.
* The store is a record of tables.  `Db.exec` gives the effect of each of the
  statement texts the program sends; any other text is an error of the engine.
  Every call of `db.query` may also fail for reasons outside the program
  (`Env.falla`).
* `bcrypt` and `jsonwebtoken` are parameters (`Bcrypt`, `Jwt`); their laws are
  hypotheses of the theorems that need them.
* Body fields are absent (`none`, JavaScript `undefined`) or strings; ids are
  the numbers MySQL compares against the integer key columns.
* Lean identifiers cannot contain `ñ`: `contraseña` is spelled `contrasena`
  and `nuevaContraseña` is spelled `nuevaContrasena` in names (the SQL and
  message texts keep the original spelling).
-/

namespace Trifix

/-! ## Values, statements, rows -/

/-- A value bound to a `?` placeholder, stored in a column or read from a row. -/
inductive Val where
  | null
  | str (s : String)
  | int (n : Nat)
deriving DecidableEq, Repr

/-- An absent body field (`undefined`) is bound as SQL `NULL`. -/
def Val.ofStr : Option String → Val
  | none => .null
  | some s => .str s

/-- An absent numeric form field is bound as SQL `NULL`. -/
def Val.ofInt : Option Nat → Val
  | none => .null
  | some n => .int n

/-- The value JavaScript sees when it reads a text column. -/
def Val.toStr : Val → Option String
  | .str s => some s
  | _ => none

/-- SQL `a = b`: never true when a side is `NULL`. -/
def Val.sqlEq : Val → Val → Bool
  | .str a, .str b => a == b
  | .int a, .int b => a == b
  | _, _ => false

/-- The call `db.query(sql, params, ...)`. -/
structure Stmt where
  sql : String
  params : List Val
deriving DecidableEq, Repr

/-- A result row: a JavaScript object with one property per selected column. -/
abbrev Row := List (String × Val)

/-- Property access `row.col`; a missing property reads as `null`. -/
def Row.get : Row → String → Val
  | [], _ => .null
  | (k, v) :: rest, col => if k = col then v else Row.get rest col

/-- What the callback of `db.query` receives on success. -/
structure Result where
  rows : List Row
  insertId : Nat
deriving DecidableEq, Repr

/-! ## Tables -/

structure Usuario where
  id : Nat
  nombre : Val
  apellido : Val
  correo : Val
  telefono : Val
  ubicacion : Val
  contrasena : Val
deriving DecidableEq, Repr

structure Publicacion where
  id : Nat
  usuario_id : Val
  titulo : Val
  descripcion : Val
  prioridad : Val
  estado_id : Val
  municipio_id : Val
  colonia_id : Val
  fecha_publicacion : Nat
deriving DecidableEq, Repr

structure Evidencia where
  id : Nat
  publicacion_id : Val
  archivo_url : Val
deriving DecidableEq, Repr

/-- A row of `estados`, `municipios` or `colonias`. -/
structure Lugar where
  id : Nat
  nombre : Val
deriving DecidableEq, Repr

/-- The database `trifix_db`: its tables and auto-increment counters. -/
structure Db where
  usuarios : List Usuario
  publicaciones : List Publicacion
  evidencias : List Evidencia
  estados : List Lugar
  municipios : List Lugar
  colonias : List Lugar
  autoUsuarios : Nat
  autoPublicaciones : Nat
  autoEvidencias : Nat
deriving DecidableEq, Repr

/-- All columns of a user row, as `SELECT *` returns them. -/
def Usuario.toRow (u : Usuario) : Row :=
  [("id", .int u.id), ("nombre", u.nombre), ("apellido", u.apellido), ("correo", u.correo),
   ("telefono", u.telefono), ("ubicacion", u.ubicacion), ("contraseña", u.contrasena)]

/-- The columns `id, nombre, apellido, correo, telefono, ubicacion` of a user row. -/
def Usuario.toPerfil (u : Usuario) : Row :=
  [("id", .int u.id), ("nombre", u.nombre), ("apellido", u.apellido), ("correo", u.correo),
   ("telefono", u.telefono), ("ubicacion", u.ubicacion)]

/-! ## The statements of the program, as the engine executes them -/

def sqlInsertUsuario : String :=
  "INSERT INTO usuarios (nombre, apellido, correo, telefono, ubicacion, contraseña) VALUES (?, ?, ?, ?, ?, ?)"

def sqlSelectLogin : String := "SELECT * FROM usuarios WHERE correo = ?"

def sqlSelectPerfil : String :=
  "SELECT id, nombre, apellido, correo, telefono, ubicacion FROM usuarios WHERE id = ?"

def sqlUpdatePerfil : String :=
  "UPDATE usuarios SET nombre=?, apellido=?, correo=?, telefono=?, ubicacion=? WHERE id=?"

def sqlUpdatePerfilPw : String :=
  "UPDATE usuarios SET nombre=?, apellido=?, correo=?, telefono=?, ubicacion=?, contraseña=? WHERE id=?"

def sqlDeletePerfil : String := "DELETE FROM usuarios WHERE id=?"

def sqlInsertPublicacion : String :=
  "INSERT INTO publicaciones (usuario_id, titulo, descripcion, prioridad, estado_id, municipio_id, colonia_id) VALUES (?, ?, ?, ?, ?, ?, ?)"

def sqlInsertEvidencia : String :=
  "INSERT INTO evidencias (publicacion_id, archivo_url) VALUES (?, ?)"

def sqlSelectPublicaciones : String :=
  "
    SELECT p.id, p.titulo, p.descripcion, p.prioridad, p.fecha_publicacion,
           u.nombre AS usuario, e.nombre AS estado, m.nombre AS municipio, c.nombre AS colonia
    FROM publicaciones p
    JOIN usuarios u ON p.usuario_id = u.id
    LEFT JOIN estados e ON p.estado_id = e.id
    LEFT JOIN municipios m ON p.municipio_id = m.id
    LEFT JOIN colonias c ON p.colonia_id = c.id
    ORDER BY p.fecha_publicacion DESC
  "

/-- Left join `LEFT JOIN t ON key = t.id`: the matching rows of `t`, or one all-`NULL` row. -/
def leftJoin (t : List Lugar) (key : Val) : List (Option Lugar) :=
  match t.filter (fun l => key.sqlEq (.int l.id)) with
  | [] => [none]
  | ls => ls.map some

/-- One row of the join of `sqlSelectPublicaciones`, before projection. -/
structure Joined where
  p : Publicacion
  u : Usuario
  e : Option Lugar
  m : Option Lugar
  c : Option Lugar
deriving DecidableEq, Repr

/-- The `FROM ... JOIN ... LEFT JOIN ...` part of `sqlSelectPublicaciones`. -/
def joinPublicaciones (db : Db) : List Joined :=
  db.publicaciones.flatMap fun p =>
    (db.usuarios.filter (fun u => p.usuario_id.sqlEq (.int u.id))).flatMap fun u =>
      (leftJoin db.estados p.estado_id).flatMap fun e =>
        (leftJoin db.municipios p.municipio_id).flatMap fun m =>
          (leftJoin db.colonias p.colonia_id).map fun c => ⟨p, u, e, m, c⟩

/-- The name column of a left-joined row. -/
def nombreDe : Option Lugar → Val
  | none => .null
  | some l => l.nombre

/-- The `SELECT` list of `sqlSelectPublicaciones`. -/
def Joined.toRow (j : Joined) : Row :=
  [("id", .int j.p.id), ("titulo", j.p.titulo), ("descripcion", j.p.descripcion),
   ("prioridad", j.p.prioridad), ("fecha_publicacion", .int j.p.fecha_publicacion),
   ("usuario", j.u.nombre), ("estado", nombreDe j.e), ("municipio", nombreDe j.m),
   ("colonia", nombreDe j.c)]

/-- The order `ORDER BY p.fecha_publicacion DESC`. -/
def masReciente (a b : Joined) : Prop := b.p.fecha_publicacion ≤ a.p.fecha_publicacion

instance : DecidableRel masReciente := fun a b =>
  inferInstanceAs (Decidable (b.p.fecha_publicacion ≤ a.p.fecha_publicacion))

instance : IsTotal Joined masReciente := ⟨fun _ _ => Nat.le_total _ _⟩

instance : IsTrans Joined masReciente := ⟨fun _ _ _ hab hbc => Nat.le_trans hbc hab⟩

/-- The author test of the inner join `JOIN usuarios u ON p.usuario_id = u.id`: some user row
has the id the publication refers to. -/
def autorExiste (db : Db) (p : Publicacion) : Bool :=
  db.usuarios.any (fun u => p.usuario_id.sqlEq (.int u.id))

/-- The creation timestamp a listed record carries. -/
def fechaDe (r : Row) : Nat :=
  match Row.get r "fecha_publicacion" with
  | .int n => n
  | _ => 0

/-- The rows `sqlSelectPublicaciones` returns. -/
def selectPublicaciones (db : Db) : List Row :=
  ((joinPublicaciones db).insertionSort masReciente).map Joined.toRow

/-- The effect and result of a statement the engine executes at time `now`;
`none` is an error of the engine (a text or a parameter count it does not accept). -/
def Db.exec (db : Db) (now : Nat) (s : Stmt) : Option (Db × Result) :=
  if s.sql = sqlInsertUsuario then
    match s.params with
    | [n, a, c, t, u, h] =>
      some ({ db with usuarios := db.usuarios ++ [⟨db.autoUsuarios, n, a, c, t, u, h⟩],
                      autoUsuarios := db.autoUsuarios + 1 }, ⟨[], db.autoUsuarios⟩)
    | _ => none
  else if s.sql = sqlSelectLogin then
    match s.params with
    | [c] => some (db, ⟨(db.usuarios.filter (fun u => u.correo.sqlEq c)).map Usuario.toRow, 0⟩)
    | _ => none
  else if s.sql = sqlSelectPerfil then
    match s.params with
    | [i] =>
      some (db, ⟨(db.usuarios.filter (fun u => (Val.int u.id).sqlEq i)).map Usuario.toPerfil, 0⟩)
    | _ => none
  else if s.sql = sqlUpdatePerfil then
    match s.params with
    | [n, a, c, t, u, i] =>
      some ({ db with usuarios := db.usuarios.map fun r =>
                if (Val.int r.id).sqlEq i then
                  { r with nombre := n, apellido := a, correo := c, telefono := t, ubicacion := u }
                else r }, ⟨[], 0⟩)
    | _ => none
  else if s.sql = sqlUpdatePerfilPw then
    match s.params with
    | [n, a, c, t, u, h, i] =>
      some ({ db with usuarios := db.usuarios.map fun r =>
                if (Val.int r.id).sqlEq i then
                  { r with nombre := n, apellido := a, correo := c, telefono := t, ubicacion := u,
                           contrasena := h }
                else r }, ⟨[], 0⟩)
    | _ => none
  else if s.sql = sqlDeletePerfil then
    match s.params with
    | [i] =>
      some ({ db with usuarios := db.usuarios.filter fun r => !(Val.int r.id).sqlEq i }, ⟨[], 0⟩)
    | _ => none
  else if s.sql = sqlInsertPublicacion then
    match s.params with
    | [u, t, d, p, e, m, c] =>
      some ({ db with publicaciones :=
                        db.publicaciones ++ [⟨db.autoPublicaciones, u, t, d, p, e, m, c, now⟩],
                      autoPublicaciones := db.autoPublicaciones + 1 }, ⟨[], db.autoPublicaciones⟩)
    | _ => none
  else if s.sql = sqlInsertEvidencia then
    match s.params with
    | [p, a] =>
      some ({ db with evidencias := db.evidencias ++ [⟨db.autoEvidencias, p, a⟩],
                      autoEvidencias := db.autoEvidencias + 1 }, ⟨[], db.autoEvidencias⟩)
    | _ => none
  else if s.sql = sqlSelectPublicaciones then
    match s.params with
    | [] => some (db, ⟨selectPublicaciones db, 0⟩)
    | _ => none
  else none

/-! ## The environment of a request and the external primitives -/

/-- What a request does not control: which calls of `db.query` fail (by position in the
handler), the salt `bcrypt` draws and the clock of the database. -/
structure Env where
  falla : Nat → Bool
  salt : Nat
  now : Nat

/-- The `k`-th call of `db.query` of a handler: `none` is the `err` branch of the callback. -/
def Db.query (db : Db) (env : Env) (k : Nat) (s : Stmt) : Option (Db × Result) :=
  if env.falla k then none else db.exec env.now s

/-- The library `bcrypt`: `hash data rounds salt` and `compare data stored`; an error is a
rejected promise. -/
structure Bcrypt where
  hash : Option String → Nat → Nat → Except String String
  compare : Option String → Val → Except String Bool

/-- The payload `{ id: usuario.id }`. -/
structure Payload where
  id : Val
deriving DecidableEq, Repr

/-- The options `{ expiresIn: ... }`. -/
structure SignOptions where
  expiresIn : String
deriving DecidableEq, Repr

/-- The library `jsonwebtoken`. -/
structure Jwt where
  sign : Payload → String → SignOptions → String
  decode : String → Option (Payload × SignOptions)

/-! ## Responses -/

inductive Body where
  | error (msg : String)
  | mensaje (msg : String)
  | login (mensaje : String) (token : String)
  | row (r : Row)
  | rows (rs : List Row)
deriving DecidableEq, Repr

structure Response where
  status : Nat
  body : Body
deriving DecidableEq, Repr

/-- What a handler did: the store afterwards, the statements it passed to `db.query` and the
responses it wrote. -/
structure Outcome where
  db : Db
  issued : List Stmt
  responses : List Response
deriving DecidableEq, Repr

/-- JavaScript truthiness of a body field: `undefined` and `''` are falsy. -/
def truthy : Option String → Bool
  | none => false
  | some s => s ≠ ""

/-! ## The file receiver (multer) -/

/-- The name `storage.filename` gives an upload received at `now` (milliseconds):
`Date.now() + '-' + file.originalname`. -/
def filename (now : Nat) (originalname : String) : String :=
  toString now ++ "-" ++ originalname

/-- An element of `req.files`. -/
structure Archivo where
  originalname : String
  path : String
deriving DecidableEq, Repr

/-! ## Request bodies -/

structure RegisterBody where
  nombre : Option String
  apellido : Option String
  correo : Option String
  telefono : Option String
  ubicacion : Option String
  contrasena : Option String
deriving DecidableEq, Repr

structure LoginBody where
  correo : Option String
  contrasena : Option String
deriving DecidableEq, Repr

structure PerfilBody where
  nombre : Option String
  apellido : Option String
  correo : Option String
  telefono : Option String
  ubicacion : Option String
  nuevaContrasena : Option String
deriving DecidableEq, Repr

structure PublicacionBody where
  usuario_id : Option Nat
  titulo : Option String
  descripcion : Option String
  prioridad : Option String
  estado_id : Option Nat
  municipio_id : Option Nat
  colonia_id : Option Nat
deriving DecidableEq, Repr

/-! ## Route handlers -/

/-- Handler `app.post('/register')`. -/
def register (B : Bcrypt) (db : Db) (body : RegisterBody) (env : Env) : Outcome :=
  match B.hash body.contrasena 10 env.salt with
  | .error _ => ⟨db, [], [⟨500, .error "Error interno en registro"⟩]⟩
  | .ok hashedPassword =>
    let query : Stmt :=
      ⟨"INSERT INTO usuarios (nombre, apellido, correo, telefono, ubicacion, contraseña) VALUES (?, ?, ?, ?, ?, ?)",
       [.ofStr body.nombre, .ofStr body.apellido, .ofStr body.correo, .ofStr body.telefono,
        .ofStr body.ubicacion, .str hashedPassword]⟩
    match db.query env 0 query with
    | none => ⟨db, [query], [⟨500, .error "Error al registrar usuario"⟩]⟩
    | some (db1, _) => ⟨db1, [query], [⟨200, .mensaje "Usuario registrado correctamente"⟩]⟩

/-- Handler `app.post('/login')`.  The callback of the query is `async` and has no `try`:
when `bcrypt.compare` rejects, the callback's promise is rejected and nothing is written. -/
def login (B : Bcrypt) (J : Jwt) (db : Db) (body : LoginBody) (env : Env) : Outcome :=
  let query : Stmt := ⟨"SELECT * FROM usuarios WHERE correo = ?", [.ofStr body.correo]⟩
  match db.query env 0 query with
  | none => ⟨db, [query], [⟨500, .error "Error en login"⟩]⟩
  | some (db1, results) =>
    match results.rows with
    | [] => ⟨db1, [query], [⟨401, .error "Usuario no encontrado"⟩]⟩
    | usuario :: _ =>
      match B.compare body.contrasena (usuario.get "contraseña") with
      | .error _ => ⟨db1, [query], []⟩
      | .ok false => ⟨db1, [query], [⟨401, .error "Contraseña incorrecta"⟩]⟩
      | .ok true =>
        let token := J.sign ⟨usuario.get "id"⟩ "clave_secreta" ⟨"1h"⟩
        ⟨db1, [query], [⟨200, .login "Login exitoso" token⟩]⟩

/-- Handler `app.get('/perfil/:id')`. -/
def getPerfil (db : Db) (id : Nat) (env : Env) : Outcome :=
  let query : Stmt :=
    ⟨"SELECT id, nombre, apellido, correo, telefono, ubicacion FROM usuarios WHERE id = ?",
     [.int id]⟩
  match db.query env 0 query with
  | none => ⟨db, [query], [⟨500, .error "Error al obtener perfil"⟩]⟩
  | some (db1, results) =>
    match results.rows with
    | [] => ⟨db1, [query], [⟨404, .error "Perfil no encontrado"⟩]⟩
    | r :: _ => ⟨db1, [query], [⟨200, .row r⟩]⟩

/-- The statement `app.put('/perfil/:id')` builds (its lines 96 to 106), or the error of
`bcrypt.hash`. -/
def buildUpdate (B : Bcrypt) (id : Nat) (body : PerfilBody) (env : Env) : Except String Stmt :=
  let query := "UPDATE usuarios SET nombre=?, apellido=?, correo=?, telefono=?, ubicacion=?"
  let params : List Val :=
    [.ofStr body.nombre, .ofStr body.apellido, .ofStr body.correo, .ofStr body.telefono,
     .ofStr body.ubicacion]
  let built : Except String (String × List Val) :=
    if truthy body.nuevaContrasena then
      match B.hash body.nuevaContrasena 10 env.salt with
      | .error e => .error e
      | .ok hashedPassword => .ok (query ++ ", contraseña=?", params ++ [.str hashedPassword])
    else .ok (query, params)
  match built with
  | .error e => .error e
  | .ok (query, params) => .ok ⟨query ++ " WHERE id=?", params ++ [.int id]⟩

/-- Handler `app.put('/perfil/:id')`. -/
def putPerfil (B : Bcrypt) (db : Db) (id : Nat) (body : PerfilBody) (env : Env) : Outcome :=
  match buildUpdate B id body env with
  | .error _ => ⟨db, [], [⟨500, .error "Error interno en actualización"⟩]⟩
  | .ok query =>
    match db.query env 0 query with
    | none => ⟨db, [query], [⟨500, .error "Error al actualizar perfil"⟩]⟩
    | some (db1, _) => ⟨db1, [query], [⟨200, .mensaje "Perfil actualizado correctamente"⟩]⟩

/-- Handler `app.delete('/perfil/:id')`. -/
def deletePerfil (db : Db) (id : Nat) (env : Env) : Outcome :=
  let query : Stmt := ⟨"DELETE FROM usuarios WHERE id=?", [.int id]⟩
  match db.query env 0 query with
  | none => ⟨db, [query], [⟨500, .error "Error al eliminar perfil"⟩]⟩
  | some (db1, _) => ⟨db1, [query], [⟨200, .mensaje "Perfil eliminado correctamente"⟩]⟩

/-- The statements of the loop `archivos.forEach(...)` for the publication `publicacionId`. -/
def evidenciaQueries (publicacionId : Nat) (archivos : Option (List Archivo)) : List Stmt :=
  match archivos with
  | none => []
  | some files =>
    if files.length > 0 then
      files.map fun file =>
        ⟨"INSERT INTO evidencias (publicacion_id, archivo_url) VALUES (?, ?)",
         [.int publicacionId, .str file.path]⟩
    else []

/-- The store after the calls `db.query` of the loop, numbered from `k`: a call that fails
leaves the store as it was and nothing looks at its error. -/
def runEvidencias (env : Env) : Nat → Db → List Stmt → Db
  | _, db, [] => db
  | k, db, q :: qs =>
    match db.query env k q with
    | none => runEvidencias env (k + 1) db qs
    | some (db1, _) => runEvidencias env (k + 1) db1 qs

/-- Handler `app.post('/publicaciones', upload.array('evidencias'), ...)`, after multer has
stored the files and filled `req.files`. -/
def postPublicaciones (db : Db) (body : PublicacionBody) (archivos : Option (List Archivo))
    (env : Env) : Outcome :=
  let query : Stmt :=
    ⟨"INSERT INTO publicaciones (usuario_id, titulo, descripcion, prioridad, estado_id, municipio_id, colonia_id) VALUES (?, ?, ?, ?, ?, ?, ?)",
     [.ofInt body.usuario_id, .ofStr body.titulo, .ofStr body.descripcion, .ofStr body.prioridad,
      .ofInt body.estado_id, .ofInt body.municipio_id, .ofInt body.colonia_id]⟩
  match db.query env 0 query with
  | none => ⟨db, [query], [⟨500, .error "Error al guardar publicación"⟩]⟩
  | some (db1, result) =>
    let publicacionId := result.insertId
    let evidencias := evidenciaQueries publicacionId archivos
    ⟨runEvidencias env 1 db1 evidencias, query :: evidencias,
     [⟨200, .mensaje "Publicación creada correctamente"⟩]⟩

/-- Handler `app.get('/publicaciones')`. -/
def getPublicaciones (db : Db) (env : Env) : Outcome :=
  let query : Stmt := ⟨"
    SELECT p.id, p.titulo, p.descripcion, p.prioridad, p.fecha_publicacion,
           u.nombre AS usuario, e.nombre AS estado, m.nombre AS municipio, c.nombre AS colonia
    FROM publicaciones p
    JOIN usuarios u ON p.usuario_id = u.id
    LEFT JOIN estados e ON p.estado_id = e.id
    LEFT JOIN municipios m ON p.municipio_id = m.id
    LEFT JOIN colonias c ON p.colonia_id = c.id
    ORDER BY p.fecha_publicacion DESC
  ", []⟩
  match db.query env 0 query with
  | none => ⟨db, [query], [⟨500, .error "Error al obtener publicaciones"⟩]⟩
  | some (db1, results) => ⟨db1, [query], [⟨200, .rows results.rows⟩]⟩

/-- Value of a decimal numeral read after the digits that gave `acc`. -/
def valorDecimal (cs : List Char) (acc : Nat) : Nat :=
  cs.foldl (fun a c => a * 10 + (c.toNat - 48)) acc

/-- The number of `?` placeholders of a statement text. -/
def placeholders (sql : String) : Nat := sql.data.count '?'

/-! ## The contracts assumed of the primitives -/

/-- The hasher verifies what it hashed: `verify(p, hash(p))`. -/
def Bcrypt.Verifies (B : Bcrypt) : Prop :=
  ∀ (p : String) (rounds salt : Nat) (h : String),
    B.hash (some p) rounds salt = .ok h → B.compare (some p) (.str h) = .ok true

/-- The hasher rejects every plaintext other than the one hashed. -/
def Bcrypt.Rejects (B : Bcrypt) : Prop :=
  ∀ (p q : String) (rounds salt : Nat) (h : String),
    q ≠ p → B.hash (some p) rounds salt = .ok h → B.compare (some q) (.str h) = .ok false

/-- Decoding a signed token gives back what was signed: `decode(sign(c)) = c`. -/
def Jwt.Decodes (J : Jwt) : Prop :=
  ∀ (c : Payload) (secret : String) (o : SignOptions), J.decode (J.sign c secret o) = some (c, o)

/-! ## Reference instances of the primitives, for evaluation -/

/-- A hasher with the contract of `bcrypt`: it rejects absent data and a stored value that
is not a string, and `compare` accepts exactly the string hashed. -/
def toyBcrypt : Bcrypt where
  hash := fun data _ _ =>
    match data with
    | none => .error "data and salt arguments required"
    | some p => .ok ("$" ++ p)
  compare := fun data stored =>
    match data, stored with
    | some p, .str h => .ok (decide (h = "$" ++ p))
    | _, _ => .error "data and hash arguments required"

/-- Text of a payload id, for `toyJwt`. -/
def encodeId : Val → List Char
  | .null => ['n']
  | .str s => 's' :: s.data
  | .int n => 'i' :: List.replicate n '1'

/-- Inverse of `encodeId`. -/
def decodeId : List Char → Val
  | 's' :: cs => .str ⟨cs⟩
  | 'i' :: cs => .int cs.length
  | _ => .null

/-- A token that lists its options and payload in clear: as many `x` as the option has
characters, a bar, the option, the payload. -/
def toyJwt : Jwt where
  sign := fun payload _ opts =>
    ⟨List.replicate opts.expiresIn.data.length 'x' ++ '|' :: (opts.expiresIn.data ++
      encodeId payload.id)⟩
  decode := fun token =>
    let n := (token.data.takeWhile (fun c => c == 'x')).length
    let rest := token.data.drop (n + 1)
    some (⟨decodeId (rest.drop n)⟩, ⟨⟨rest.take n⟩⟩)

/-! ## Concrete stores and requests, for evaluation -/

/-- An environment in which no query fails. -/
def envOk : Env := ⟨fun _ => false, 0, 0⟩

/-- The empty database. -/
def dbVacia : Db := ⟨[], [], [], [], [], [], 1, 1, 1⟩

/-- The registration of the example of the specification. -/
def anaBody : RegisterBody :=
  ⟨some "Ana", some "Lee", some "ana@x.com", some "555", some "CDMX", some "secret1"⟩

/-- The store after Ana registered with `toyBcrypt`. -/
def dbAna : Db :=
  { dbVacia with
    usuarios := [⟨1, .str "Ana", .str "Lee", .str "ana@x.com", .str "555", .str "CDMX",
                  .str "$secret1"⟩],
    autoUsuarios := 2 }

/-- The kind of a response, by its HTTP status. -/
inductive Kind where
  | ok
  | unauthorized
  | notFound
  | internal
  | other
deriving DecidableEq, Repr

/-- The kind of a response: 200 OK, 401 Unauthorized, 404 Not Found, 500 Internal Server
Error. -/
def Response.kind (r : Response) : Kind :=
  if r.status = 200 then .ok
  else if r.status = 401 then .unauthorized
  else if r.status = 404 then .notFound
  else if r.status = 500 then .internal
  else .other

/-- A profile update for Ana that keeps her data and sends `nueva` as `nuevaContraseña`. -/
def anaUpdate (nueva : Option String) : PerfilBody :=
  ⟨some "Ana", some "Lee", some "ana@x.com", some "555", some "CDMX", nueva⟩

/-- A publication request without region, municipality or neighbourhood. -/
def baches : PublicacionBody := ⟨some 1, some "Bache", some "En la esquina", some "alta", none, none, none⟩

/-- Two stored uploads. -/
def dosArchivos : List Archivo :=
  [⟨"a.png", "uploads/1700000000000-a.png"⟩, ⟨"b.png", "uploads/1700000000001-b.png"⟩]

/-- Ana and two publications of hers without region, municipality or neighbourhood, the
second more recent than the first. -/
def dbPublicada : Db :=
  { dbAna with
    publicaciones :=
      [⟨1, .int 1, .str "Bache", .str "En la esquina", .str "alta", .null, .null, .null, 100⟩,
       ⟨2, .int 1, .str "Fuga", .str "De agua", .str "media", .null, .null, .null, 200⟩],
    autoPublicaciones := 3 }

/-! ## Lemmas: the reference instances satisfy the contracts -/

theorem toyBcrypt_verifies : toyBcrypt.Verifies := by
  intro p rounds salt h hh
  simp only [toyBcrypt, Except.ok.injEq] at hh
  subst hh
  simp [toyBcrypt]

theorem toyBcrypt_rejects : toyBcrypt.Rejects := by
  intro p q rounds salt h hne hh
  simp only [toyBcrypt, Except.ok.injEq] at hh
  subst hh
  have : ¬ ("$" ++ p = "$" ++ q) := by
    intro h
    apply hne
    have h2 := congrArg String.data h
    simp only [String.data_append, List.append_cancel_left_eq] at h2
    exact (String.ext h2).symm
  simp [toyBcrypt, this]

theorem decodeId_encodeId (v : Val) : decodeId (encodeId v) = v := by
  cases v <;> simp [encodeId, decodeId]

theorem takeWhile_replicate_bar (n : Nat) (rest : List Char) :
    (List.replicate n 'x' ++ '|' :: rest).takeWhile (fun c => c == 'x') = List.replicate n 'x' := by
  induction n with
  | zero => simp [List.takeWhile]
  | succ n ih => simp [List.replicate_succ, List.takeWhile, ih]

theorem toyJwt_decodes : toyJwt.Decodes := by
  intro c secret o
  obtain ⟨id⟩ := c
  obtain ⟨⟨e⟩⟩ := o
  simp only [toyJwt, takeWhile_replicate_bar, List.length_replicate]
  have h1 : (List.replicate e.length 'x' ++ '|' :: (e ++ encodeId id)).drop (e.length + 1)
      = e ++ encodeId id := by
    have : (List.replicate e.length 'x' ++ '|' :: (e ++ encodeId id))
        = (List.replicate e.length 'x' ++ ['|']) ++ (e ++ encodeId id) := by simp
    rw [this, List.drop_left'] 
    simp
  rw [h1]
  simp [decodeId_encodeId]

/-! ## Lemmas: the engine on the statements of the program -/

theorem exec_insertUsuario (db : Db) (now : Nat) (n a c t u h : Val) :
    db.exec now ⟨"INSERT INTO usuarios (nombre, apellido, correo, telefono, ubicacion, contraseña) VALUES (?, ?, ?, ?, ?, ?)", [n, a, c, t, u, h]⟩ =
      some ({ db with usuarios := db.usuarios ++ [⟨db.autoUsuarios, n, a, c, t, u, h⟩],
                      autoUsuarios := db.autoUsuarios + 1 }, ⟨[], db.autoUsuarios⟩) := by
  rfl

theorem exec_selectLogin (db : Db) (now : Nat) (c : Val) :
    db.exec now ⟨"SELECT * FROM usuarios WHERE correo = ?", [c]⟩ =
      some (db, ⟨(db.usuarios.filter (fun u => u.correo.sqlEq c)).map Usuario.toRow, 0⟩) := by
  rfl

theorem exec_updatePerfil (db : Db) (now : Nat) (n a c t u i : Val) :
    db.exec now ⟨"UPDATE usuarios SET nombre=?, apellido=?, correo=?, telefono=?, ubicacion=?"
        ++ " WHERE id=?", [n, a, c, t, u] ++ [i]⟩ =
      some ({ db with usuarios := db.usuarios.map fun r =>
                if (Val.int r.id).sqlEq i then
                  { r with nombre := n, apellido := a, correo := c, telefono := t, ubicacion := u }
                else r }, ⟨[], 0⟩) := by
  rfl

theorem exec_updatePerfilPw (db : Db) (now : Nat) (n a c t u h i : Val) :
    db.exec now ⟨"UPDATE usuarios SET nombre=?, apellido=?, correo=?, telefono=?, ubicacion=?"
        ++ ", contraseña=?" ++ " WHERE id=?", [n, a, c, t, u] ++ [h] ++ [i]⟩ =
      some ({ db with usuarios := db.usuarios.map fun r =>
                if (Val.int r.id).sqlEq i then
                  { r with nombre := n, apellido := a, correo := c, telefono := t, ubicacion := u,
                           contrasena := h }
                else r }, ⟨[], 0⟩) := by
  rfl

theorem exec_insertPublicacion (db : Db) (now : Nat) (u t d p e m c : Val) :
    db.exec now ⟨"INSERT INTO publicaciones (usuario_id, titulo, descripcion, prioridad, estado_id, municipio_id, colonia_id) VALUES (?, ?, ?, ?, ?, ?, ?)", [u, t, d, p, e, m, c]⟩ =
      some ({ db with publicaciones :=
                        db.publicaciones ++ [⟨db.autoPublicaciones, u, t, d, p, e, m, c, now⟩],
                      autoPublicaciones := db.autoPublicaciones + 1 },
            ⟨[], db.autoPublicaciones⟩) := by
  rfl

set_option maxRecDepth 100000 in
theorem exec_selectPublicaciones (db : Db) (now : Nat) :
    db.exec now ⟨"
    SELECT p.id, p.titulo, p.descripcion, p.prioridad, p.fecha_publicacion,
           u.nombre AS usuario, e.nombre AS estado, m.nombre AS municipio, c.nombre AS colonia
    FROM publicaciones p
    JOIN usuarios u ON p.usuario_id = u.id
    LEFT JOIN estados e ON p.estado_id = e.id
    LEFT JOIN municipios m ON p.municipio_id = m.id
    LEFT JOIN colonias c ON p.colonia_id = c.id
    ORDER BY p.fecha_publicacion DESC
  ", []⟩ = some (db, ⟨selectPublicaciones db, 0⟩) := by
  rfl

theorem toRow_contrasena (u : Usuario) : (Usuario.toRow u).get "contraseña" = u.contrasena := by
  rfl

theorem toRow_id (u : Usuario) : (Usuario.toRow u).get "id" = .int u.id := by
  rfl

/-- The query of `login`, when it does not fail, returns the rows with the given email. -/
theorem query_selectLogin (db : Db) (env : Env) (c : Val) (hq : env.falla 0 = false) :
    db.query env 0 ⟨"SELECT * FROM usuarios WHERE correo = ?", [c]⟩ =
      some (db, ⟨(db.usuarios.filter (fun u => u.correo.sqlEq c)).map Usuario.toRow, 0⟩) := by
  simp only [Db.query, hq, Bool.false_eq_true, if_false]
  exact exec_selectLogin db env.now c

/-! ## Login: the two refusals (C1) -/

/-- C1, as stated, fails: a login with an email no user has is answered with status 401
(Unauthorized), the status of a wrong password, not with the 404 (NotFound) that the
profile read gives for a missing user. -/
theorem login_unknown_email_is_unauthorized :
    (login toyBcrypt toyJwt dbVacia ⟨some "ana@x.com", some "secret1"⟩ envOk).responses
        = [⟨401, .error "Usuario no encontrado"⟩] ∧
    (login toyBcrypt toyJwt dbVacia ⟨some "ana@x.com", some "secret1"⟩ envOk).responses.map
        Response.kind ≠ [Kind.notFound] ∧
    (login toyBcrypt toyJwt dbAna ⟨some "ana@x.com", some "wrong"⟩ envOk).responses.map
        Response.kind
      = (login toyBcrypt toyJwt dbVacia ⟨some "ana@x.com", some "secret1"⟩ envOk).responses.map
        Response.kind ∧
    (getPerfil dbVacia 1 envOk).responses.map Response.kind = [Kind.notFound] := by
  refine ⟨rfl, ?_, rfl, rfl⟩
  decide

/-- C1, amended: when the query succeeds, a login whose email matches no user row is answered
with 401 and the message `Usuario no encontrado`; a login whose email matches a row (the
first such row is the one used) and whose password `bcrypt.compare` reports as not matching
that row's hash is answered with 401 and the message `Contraseña incorrecta`; the two
responses differ (in their message, not in their status). -/
theorem login_refusals (B : Bcrypt) (J : Jwt) (db : Db) (body : LoginBody) (env : Env)
    (hq : env.falla 0 = false) :
    ((∀ u ∈ db.usuarios, u.correo.sqlEq (.ofStr body.correo) = false) →
      (login B J db body env).responses = [⟨401, .error "Usuario no encontrado"⟩]) ∧
    (∀ (u : Usuario) (rest : List Usuario),
      db.usuarios.filter (fun u => u.correo.sqlEq (.ofStr body.correo)) = u :: rest →
      B.compare body.contrasena u.contrasena = .ok false →
      (login B J db body env).responses = [⟨401, .error "Contraseña incorrecta"⟩]) ∧
    (⟨401, .error "Usuario no encontrado"⟩ : Response) ≠ ⟨401, .error "Contraseña incorrecta"⟩ := by
  refine ⟨?_, ?_, by decide⟩
  · intro hno
    have hf : db.usuarios.filter (fun u => u.correo.sqlEq (.ofStr body.correo)) = [] := by
      rw [List.filter_eq_nil_iff]
      intro u hu
      simp [hno u hu]
    simp only [login, query_selectLogin db env _ hq, hf, List.map_nil]
  · intro u rest hf hc
    simp only [login, query_selectLogin db env _ hq, hf, List.map_cons, toRow_contrasena, hc]

theorem login_refusals_witness :
    (login toyBcrypt toyJwt dbVacia ⟨some "ana@x.com", some "secret1"⟩ envOk).responses
        = [⟨401, .error "Usuario no encontrado"⟩] ∧
    (login toyBcrypt toyJwt dbAna ⟨some "ana@x.com", some "wrong"⟩ envOk).responses
        = [⟨401, .error "Contraseña incorrecta"⟩] :=
  ⟨(login_refusals toyBcrypt toyJwt dbVacia ⟨some "ana@x.com", some "secret1"⟩ envOk rfl).1
      (by decide),
   (login_refusals toyBcrypt toyJwt dbAna ⟨some "ana@x.com", some "wrong"⟩ envOk rfl).2.1
      _ [] rfl rfl⟩

/-! ## Errors at the handler boundary (C8) -/

/-- C8, at the failing input: Ana is registered and logs in with a body that has her email
and no password.  `bcrypt.compare` rejects, the `async` callback of the query has no `try`,
and `login` writes no response at all (not the generic 500); `register`, whose hashing is
inside a `try`, answers the same missing password with a 500. -/
theorem login_without_password_writes_nothing :
    toyBcrypt.compare none (.str "$secret1") = .error "data and hash arguments required" ∧
    (login toyBcrypt toyJwt dbAna ⟨some "ana@x.com", none⟩ envOk).responses = [] ∧
    (register toyBcrypt dbAna { anaBody with contrasena := none } envOk).responses
      = [⟨500, .error "Error interno en registro"⟩] := by
  refine ⟨rfl, rfl, rfl⟩

/-- Whenever `bcrypt.compare` rejects for the first row found, `login` writes no response. -/
theorem login_compare_error (B : Bcrypt) (J : Jwt) (db : Db) (body : LoginBody) (env : Env)
    (hq : env.falla 0 = false) (u : Usuario) (rest : List Usuario) (e : String)
    (hf : db.usuarios.filter (fun u => u.correo.sqlEq (.ofStr body.correo)) = u :: rest)
    (hc : B.compare body.contrasena u.contrasena = .error e) :
    (login B J db body env).responses = [] := by
  simp only [login, query_selectLogin db env _ hq, hf, List.map_cons, toRow_contrasena, hc]

/-- The handlers other than `login` write exactly one response, with status 200, 404 or 500,
whatever the store, the request, the hasher and the failures of the queries. -/
theorem other_handlers_one_response (B : Bcrypt) (db : Db) (env : Env) :
    (∀ body, ∃ r, (register B db body env).responses = [r] ∧ (r.status = 200 ∨ r.status = 500)) ∧
    (∀ id, ∃ r, (getPerfil db id env).responses = [r] ∧
      (r.status = 200 ∨ r.status = 404 ∨ r.status = 500)) ∧
    (∀ id body, ∃ r, (putPerfil B db id body env).responses = [r] ∧
      (r.status = 200 ∨ r.status = 500)) ∧
    (∀ id, ∃ r, (deletePerfil db id env).responses = [r] ∧ (r.status = 200 ∨ r.status = 500)) ∧
    (∀ body archivos, ∃ r, (postPublicaciones db body archivos env).responses = [r] ∧
      (r.status = 200 ∨ r.status = 500)) ∧
    (∃ r, (getPublicaciones db env).responses = [r] ∧ (r.status = 200 ∨ r.status = 500)) := by
  refine ⟨?_, ?_, ?_, ?_, ?_, ?_⟩
  · intro body
    simp only [register]
    split
    · exact ⟨_, rfl, Or.inr rfl⟩
    · split
      · exact ⟨_, rfl, Or.inr rfl⟩
      · exact ⟨_, rfl, Or.inl rfl⟩
  · intro id
    simp only [getPerfil]
    split
    · exact ⟨_, rfl, Or.inr (Or.inr rfl)⟩
    · split
      · exact ⟨_, rfl, Or.inr (Or.inl rfl)⟩
      · exact ⟨_, rfl, Or.inl rfl⟩
  · intro id body
    simp only [putPerfil]
    split
    · exact ⟨_, rfl, Or.inr rfl⟩
    · split
      · exact ⟨_, rfl, Or.inr rfl⟩
      · exact ⟨_, rfl, Or.inl rfl⟩
  · intro id
    simp only [deletePerfil]
    split
    · exact ⟨_, rfl, Or.inr rfl⟩
    · exact ⟨_, rfl, Or.inl rfl⟩
  · intro body archivos
    simp only [postPublicaciones]
    split
    · exact ⟨_, rfl, Or.inr rfl⟩
    · exact ⟨_, rfl, Or.inl rfl⟩
  · simp only [getPublicaciones]
    split
    · exact ⟨_, rfl, Or.inr rfl⟩
    · exact ⟨_, rfl, Or.inl rfl⟩

/-! ## Registration, then login (C2) -/

/-- C2: with a hasher that verifies what it hashed and a token primitive whose `decode`
inverts `sign`, if no user row has the email `e`, the registration of `(e, p)` succeeds and
the query of the login does not fail, then registration appended one row, with the generated
id `db.autoUsuarios`, and the login with `(e, p)` is answered with 200, `Login exitoso` and the
token signed for the payload with that id, the secret `clave_secreta` and `expiresIn: '1h'`
(one hour); decoding that token gives that id and that validity. -/
theorem register_then_login (B : Bcrypt) (J : Jwt) (db : Db) (body : RegisterBody)
    (env env2 : Env) (e p : String)
    (hB : B.Verifies) (hJ : J.Decodes)
    (he : body.correo = some e) (hp : body.contrasena = some p)
    (hfresh : ∀ u ∈ db.usuarios, u.correo ≠ .str e)
    (hreg : (register B db body env).responses
      = [⟨200, .mensaje "Usuario registrado correctamente"⟩])
    (hq : env2.falla 0 = false) :
    (∃ h, (register B db body env).db.usuarios = db.usuarios ++
        [⟨db.autoUsuarios, .ofStr body.nombre, .ofStr body.apellido, .str e,
          .ofStr body.telefono, .ofStr body.ubicacion, .str h⟩]) ∧
    (login B J (register B db body env).db ⟨some e, some p⟩ env2).responses
      = [⟨200, .login "Login exitoso"
          (J.sign ⟨.int db.autoUsuarios⟩ "clave_secreta" ⟨"1h"⟩)⟩] ∧
    J.decode (J.sign ⟨.int db.autoUsuarios⟩ "clave_secreta" ⟨"1h"⟩)
      = some (⟨.int db.autoUsuarios⟩, ⟨"1h"⟩) := by
  have hnil : db.usuarios.filter (fun u => u.correo.sqlEq (.str e)) = [] := by
    rw [List.filter_eq_nil_iff]
    intro u hu
    have := hfresh u hu
    cases hc : u.correo <;> simp_all [Val.sqlEq]
  cases hh : B.hash body.contrasena 10 env.salt with
  | error err => simp [register, hh] at hreg
  | ok h =>
    cases hf : env.falla 0 with
    | true => simp [register, hh, Db.query, hf] at hreg
    | false =>
      have hdb : (register B db body env).db =
          { db with usuarios := db.usuarios ++ [⟨db.autoUsuarios, .ofStr body.nombre,
                      .ofStr body.apellido, .ofStr body.correo, .ofStr body.telefono,
                      .ofStr body.ubicacion, .str h⟩],
                    autoUsuarios := db.autoUsuarios + 1 } := by
        simp only [register, hh, Db.query, hf, Bool.false_eq_true, if_false, exec_insertUsuario]
      have hcmp : B.compare (some p) (.str h) = .ok true := by
        rw [hp] at hh
        exact hB p 10 env.salt h hh
      refine ⟨⟨h, ?_⟩, ?_, hJ _ _ _⟩
      · rw [hdb, he]; rfl
      · rw [hdb]
        simp only [login, query_selectLogin _ env2 _ hq, Val.ofStr, List.filter_append, hnil,
          List.nil_append, he]
        simp [Val.sqlEq, toRow_contrasena, toRow_id, hcmp]

theorem register_then_login_witness :
    (login toyBcrypt toyJwt (register toyBcrypt dbVacia anaBody envOk).db
        ⟨some "ana@x.com", some "secret1"⟩ envOk).responses
      = [⟨200, .login "Login exitoso" (toyJwt.sign ⟨.int 1⟩ "clave_secreta" ⟨"1h"⟩)⟩] ∧
    toyJwt.decode (toyJwt.sign ⟨.int 1⟩ "clave_secreta" ⟨"1h"⟩) = some (⟨.int 1⟩, ⟨"1h"⟩) :=
  (register_then_login toyBcrypt toyJwt dbVacia anaBody envOk envOk "ana@x.com" "secret1"
    toyBcrypt_verifies toyJwt_decodes rfl rfl (by decide) rfl rfl).2

/-! ## Profile update (C3, C4, C9) -/

/-- The statement built when no new password is sent (absent or empty). -/
theorem buildUpdate_falsy (B : Bcrypt) (id : Nat) (body : PerfilBody) (env : Env)
    (h : truthy body.nuevaContrasena = false) :
    buildUpdate B id body env = .ok
      ⟨"UPDATE usuarios SET nombre=?, apellido=?, correo=?, telefono=?, ubicacion=? WHERE id=?",
       [.ofStr body.nombre, .ofStr body.apellido, .ofStr body.correo, .ofStr body.telefono,
        .ofStr body.ubicacion, .int id]⟩ := by
  simp only [buildUpdate, h, Bool.false_eq_true, if_false]
  rfl

/-- The statement built when a new password is sent and hashed to `hsh`. -/
theorem buildUpdate_truthy (B : Bcrypt) (id : Nat) (body : PerfilBody) (env : Env) (hsh : String)
    (h : truthy body.nuevaContrasena = true)
    (hh : B.hash body.nuevaContrasena 10 env.salt = .ok hsh) :
    buildUpdate B id body env = .ok
      ⟨"UPDATE usuarios SET nombre=?, apellido=?, correo=?, telefono=?, ubicacion=?, contraseña=? WHERE id=?",
       [.ofStr body.nombre, .ofStr body.apellido, .ofStr body.correo, .ofStr body.telefono,
        .ofStr body.ubicacion, .str hsh, .int id]⟩ := by
  simp only [buildUpdate, h, if_true, hh]
  rfl

/-- The engine on the statement without the password column. -/
theorem query_updatePerfil (db : Db) (env : Env) (n a c t u i : Val) (hq : env.falla 0 = false) :
    db.query env 0
      ⟨"UPDATE usuarios SET nombre=?, apellido=?, correo=?, telefono=?, ubicacion=? WHERE id=?",
       [n, a, c, t, u, i]⟩ =
      some ({ db with usuarios := db.usuarios.map fun r =>
                if (Val.int r.id).sqlEq i then
                  { r with nombre := n, apellido := a, correo := c, telefono := t, ubicacion := u }
                else r }, ⟨[], 0⟩) := by
  simp only [Db.query, hq, Bool.false_eq_true, if_false]
  exact exec_updatePerfil db env.now n a c t u i

/-- The engine on the statement with the password column. -/
theorem query_updatePerfilPw (db : Db) (env : Env) (n a c t u h i : Val)
    (hq : env.falla 0 = false) :
    db.query env 0
      ⟨"UPDATE usuarios SET nombre=?, apellido=?, correo=?, telefono=?, ubicacion=?, contraseña=? WHERE id=?",
       [n, a, c, t, u, h, i]⟩ =
      some ({ db with usuarios := db.usuarios.map fun r =>
                if (Val.int r.id).sqlEq i then
                  { r with nombre := n, apellido := a, correo := c, telefono := t, ubicacion := u,
                           contrasena := h }
                else r }, ⟨[], 0⟩) := by
  simp only [Db.query, hq, Bool.false_eq_true, if_false]
  exact exec_updatePerfilPw db env.now n a c t u h i

/-- C3: a profile update that sends no new password (the field is absent, or empty) issues
the `UPDATE` whose text has no `contraseña=?` assignment, and after it every user row has the
id and the stored password hash it had before, whether the query succeeds or fails. -/
theorem putPerfil_without_password (B : Bcrypt) (db : Db) (id : Nat) (body : PerfilBody)
    (env : Env) (h : truthy body.nuevaContrasena = false) :
    (putPerfil B db id body env).issued =
      [⟨"UPDATE usuarios SET nombre=?, apellido=?, correo=?, telefono=?, ubicacion=? WHERE id=?",
        [.ofStr body.nombre, .ofStr body.apellido, .ofStr body.correo, .ofStr body.telefono,
         .ofStr body.ubicacion, .int id]⟩] ∧
    (putPerfil B db id body env).db.usuarios.map (fun u => (u.id, u.contrasena))
      = db.usuarios.map (fun u => (u.id, u.contrasena)) := by
  cases hf : env.falla 0 with
  | true =>
    simp [putPerfil, buildUpdate_falsy B id body env h, Db.query, hf]
  | false =>
    simp only [putPerfil, buildUpdate_falsy B id body env h, query_updatePerfil db env _ _ _ _ _ _ hf]
    refine ⟨trivial, ?_⟩
    simp only [List.map_map]
    apply List.map_congr_left
    intro u _
    simp only [Function.comp]
    split <;> rfl

theorem putPerfil_without_password_witness :
    (putPerfil toyBcrypt dbAna 1 (anaUpdate none) envOk).db.usuarios.map
        (fun u => (u.id, u.contrasena))
      = dbAna.usuarios.map (fun u => (u.id, u.contrasena)) :=
  (putPerfil_without_password toyBcrypt dbAna 1 (anaUpdate none) envOk rfl).2

/-- C4, as stated, fails for the empty string: with a hasher that verifies exactly what it
hashed, Ana (password `secret1`) sends the new password `''`; the update succeeds, her stored
hash is unchanged, the new plaintext `''` does not verify against it and the old plaintext
still does. -/
theorem putPerfil_empty_password_not_stored :
    toyBcrypt.Verifies ∧ toyBcrypt.Rejects ∧
    (putPerfil toyBcrypt dbAna 1 (anaUpdate (some "")) envOk).responses
      = [⟨200, .mensaje "Perfil actualizado correctamente"⟩] ∧
    (putPerfil toyBcrypt dbAna 1 (anaUpdate (some "")) envOk).db.usuarios.map
        (fun u => (u.id, u.contrasena)) = [(1, .str "$secret1")] ∧
    toyBcrypt.compare (some "") (.str "$secret1") = .ok false ∧
    toyBcrypt.compare (some "secret1") (.str "$secret1") = .ok true :=
  ⟨toyBcrypt_verifies, toyBcrypt_rejects, rfl, rfl, rfl, rfl⟩

/-- C4, amended: with a hasher that verifies what it hashed and rejects other plaintexts,
for a profile update that sends a non-empty new password `n` and is answered with the
success response, the user rows keep their ids and every row with the given id stores a hash
`h` that `bcrypt.hash` produced from `n`: the plaintext `n` verifies against it and every
other plaintext (the old one, when different from `n`) does not. -/
theorem putPerfil_with_password (B : Bcrypt) (db : Db) (id : Nat) (body : PerfilBody)
    (env : Env) (n : String) (hB : B.Verifies) (hR : B.Rejects)
    (hn : body.nuevaContrasena = some n) (hne : n ≠ "")
    (hok : (putPerfil B db id body env).responses
      = [⟨200, .mensaje "Perfil actualizado correctamente"⟩]) :
    (putPerfil B db id body env).db.usuarios.map (fun u => u.id) = db.usuarios.map (fun u => u.id) ∧
    ∀ u ∈ (putPerfil B db id body env).db.usuarios, u.id = id →
      ∃ h, u.contrasena = .str h ∧ B.hash (some n) 10 env.salt = .ok h ∧
        B.compare (some n) (.str h) = .ok true ∧
        ∀ o, o ≠ n → B.compare (some o) (.str h) = .ok false := by
  have ht : truthy body.nuevaContrasena = true := by simp [truthy, hn, hne]
  cases hh : B.hash body.nuevaContrasena 10 env.salt with
  | error err =>
    simp [putPerfil, buildUpdate, ht, hh] at hok
  | ok h =>
    cases hf : env.falla 0 with
    | true =>
      simp [putPerfil, buildUpdate_truthy B id body env h ht hh, Db.query, hf] at hok
    | false =>
      have hdb : (putPerfil B db id body env).db.usuarios = db.usuarios.map fun r =>
          if (Val.int r.id).sqlEq (.int id) then
            { r with nombre := .ofStr body.nombre, apellido := .ofStr body.apellido,
                     correo := .ofStr body.correo, telefono := .ofStr body.telefono,
                     ubicacion := .ofStr body.ubicacion, contrasena := .str h }
          else r := by
        simp only [putPerfil, buildUpdate_truthy B id body env h ht hh,
          query_updatePerfilPw db env _ _ _ _ _ _ _ hf]
      rw [hn] at hh
      refine ⟨?_, ?_⟩
      · rw [hdb, List.map_map]
        apply List.map_congr_left
        intro u _
        simp only [Function.comp]
        split <;> rfl
      · intro u hu hid
        rw [hdb, List.mem_map] at hu
        obtain ⟨r, _, hr⟩ := hu
        by_cases hc : (Val.int r.id).sqlEq (.int id) = true
        · rw [if_pos hc] at hr
          refine ⟨h, ?_, hh, hB n 10 env.salt h hh, fun o ho => hR n o 10 env.salt h ho hh⟩
          rw [← hr]
        · rw [if_neg hc] at hr
          subst hr
          exact absurd (by simp [Val.sqlEq, hid]) hc

theorem putPerfil_with_password_witness :
    (putPerfil toyBcrypt dbAna 1 (anaUpdate (some "nueva")) envOk).db.usuarios.map (fun u => u.id)
      = dbAna.usuarios.map (fun u => u.id) ∧
    ∃ h, Val.str "$nueva" = .str h ∧ toyBcrypt.hash (some "nueva") 10 envOk.salt = .ok h ∧
      toyBcrypt.compare (some "nueva") (.str h) = .ok true ∧
      toyBcrypt.compare (some "secret1") (.str h) = .ok false :=
  ⟨(putPerfil_with_password toyBcrypt dbAna 1 (anaUpdate (some "nueva")) envOk "nueva"
      toyBcrypt_verifies toyBcrypt_rejects rfl (by decide) rfl).1,
   ((putPerfil_with_password toyBcrypt dbAna 1 (anaUpdate (some "nueva")) envOk "nueva"
      toyBcrypt_verifies toyBcrypt_rejects rfl (by decide) rfl).2
      ⟨1, .str "Ana", .str "Lee", .str "ana@x.com", .str "555", .str "CDMX", .str "$nueva"⟩
      (by decide) rfl).imp
     (fun _ hh => ⟨hh.1, hh.2.1, hh.2.2.1, hh.2.2.2 "secret1" (by decide)⟩)⟩

/-- C9: whenever the profile update builds its statement (that is, unless `bcrypt.hash`
rejects), the number of `?` in the text equals the number of parameters and the last
parameter is the user id, bound to the `WHERE id=?` that ends the text.  Without a new
password (absent or empty) there are 6 parameters: name, surname, email, phone, location, id.
With a new password there are 7: the same five, the hash of the new password, the id.  The
handler passes exactly this statement to `db.query`. -/
theorem buildUpdate_placeholders (B : Bcrypt) (db : Db) (id : Nat) (body : PerfilBody)
    (env : Env) (q : Stmt) (hq : buildUpdate B id body env = .ok q) :
    placeholders q.sql = q.params.length ∧
    q.params.getLast? = some (.int id) ∧
    " WHERE id=?".data <:+ q.sql.data ∧
    (putPerfil B db id body env).issued = [q] ∧
    (truthy body.nuevaContrasena = false →
      q.params.length = 6 ∧
      q.params = [.ofStr body.nombre, .ofStr body.apellido, .ofStr body.correo,
        .ofStr body.telefono, .ofStr body.ubicacion, .int id]) ∧
    (truthy body.nuevaContrasena = true →
      q.params.length = 7 ∧
      ∃ hsh, B.hash body.nuevaContrasena 10 env.salt = .ok hsh ∧
        q.params = [.ofStr body.nombre, .ofStr body.apellido, .ofStr body.correo,
          .ofStr body.telefono, .ofStr body.ubicacion, .str hsh, .int id]) := by
  have hissued : (putPerfil B db id body env).issued = [q] := by
    simp only [putPerfil, hq]
    split <;> rfl
  cases ht : truthy body.nuevaContrasena with
  | false =>
    rw [buildUpdate_falsy B id body env ht] at hq
    injection hq with hq
    subst hq
    refine ⟨?_, rfl, ?_, hissued, fun _ => ⟨rfl, rfl⟩, fun h => by simp at h⟩
    · rfl
    · dsimp only
      decide
  | true =>
    cases hh : B.hash body.nuevaContrasena 10 env.salt with
    | error err => simp [buildUpdate, ht, hh] at hq
    | ok hsh =>
      rw [buildUpdate_truthy B id body env hsh ht hh] at hq
      injection hq with hq
      subst hq
      refine ⟨?_, rfl, ?_, hissued, fun h => by simp at h, fun _ => ⟨rfl, hsh, rfl, rfl⟩⟩
      · rfl
      · dsimp only
        decide

theorem buildUpdate_placeholders_witness :
    placeholders
        "UPDATE usuarios SET nombre=?, apellido=?, correo=?, telefono=?, ubicacion=?, contraseña=? WHERE id=?"
      = 7 :=
  (buildUpdate_placeholders toyBcrypt dbAna 1 (anaUpdate (some "nueva")) envOk
    ⟨"UPDATE usuarios SET nombre=?, apellido=?, correo=?, telefono=?, ubicacion=?, contraseña=? WHERE id=?",
     [.str "Ana", .str "Lee", .str "ana@x.com", .str "555", .str "CDMX", .str "$nueva", .int 1]⟩
    rfl).1

/-! ## Publication creation (C5) -/

/-- C5: for a request with the received files `files` (any number, zero included): when
the insert of the publication succeeds, its generated id is `db.autoPublicaciones` and the
statements issued after it are exactly one attachment insert per file, in the order of the
files, each with that id and the file's stored path (so there are `files.length` of them);
when the insert of the publication fails, it is the only statement issued. -/
theorem postPublicaciones_issued (db : Db) (body : PublicacionBody) (files : List Archivo)
    (env : Env) :
    (env.falla 0 = false →
      (∃ db1, db.query env 0
          ⟨"INSERT INTO publicaciones (usuario_id, titulo, descripcion, prioridad, estado_id, municipio_id, colonia_id) VALUES (?, ?, ?, ?, ?, ?, ?)",
           [.ofInt body.usuario_id, .ofStr body.titulo, .ofStr body.descripcion,
            .ofStr body.prioridad, .ofInt body.estado_id, .ofInt body.municipio_id,
            .ofInt body.colonia_id]⟩ = some (db1, ⟨[], db.autoPublicaciones⟩)) ∧
      (postPublicaciones db body (some files) env).issued.tail =
        files.map (fun file =>
          ⟨"INSERT INTO evidencias (publicacion_id, archivo_url) VALUES (?, ?)",
           [.int db.autoPublicaciones, .str file.path]⟩) ∧
      (postPublicaciones db body (some files) env).issued.tail.length = files.length) ∧
    (env.falla 0 = true →
      (postPublicaciones db body (some files) env).issued.tail = [] ∧
      (postPublicaciones db body (some files) env).responses
        = [⟨500, .error "Error al guardar publicación"⟩]) ∧
    (postPublicaciones db body (some files) env).issued.head? = some
      ⟨"INSERT INTO publicaciones (usuario_id, titulo, descripcion, prioridad, estado_id, municipio_id, colonia_id) VALUES (?, ?, ?, ?, ?, ?, ?)",
       [.ofInt body.usuario_id, .ofStr body.titulo, .ofStr body.descripcion,
        .ofStr body.prioridad, .ofInt body.estado_id, .ofInt body.municipio_id,
        .ofInt body.colonia_id]⟩ := by
  have hev : ∀ k, evidenciaQueries k (some files) = files.map (fun file =>
      ⟨"INSERT INTO evidencias (publicacion_id, archivo_url) VALUES (?, ?)",
       [.int k, .str file.path]⟩) := by
    intro k
    cases files with
    | nil => rfl
    | cons f fs => simp [evidenciaQueries]
  cases hf : env.falla 0 with
  | true =>
    simp [postPublicaciones, Db.query, hf]
  | false =>
    simp [postPublicaciones, Db.query, hf, exec_insertPublicacion, hev]

theorem postPublicaciones_issued_witness :
    (postPublicaciones dbAna baches (some dosArchivos) envOk).issued.tail =
      [⟨"INSERT INTO evidencias (publicacion_id, archivo_url) VALUES (?, ?)",
        [.int 1, .str "uploads/1700000000000-a.png"]⟩,
       ⟨"INSERT INTO evidencias (publicacion_id, archivo_url) VALUES (?, ?)",
        [.int 1, .str "uploads/1700000000001-b.png"]⟩] ∧
    (postPublicaciones dbAna baches (some dosArchivos)
        { envOk with falla := fun _ => true }).issued.tail = [] :=
  ⟨((postPublicaciones_issued dbAna baches dosArchivos envOk).1 rfl).2.1,
   ((postPublicaciones_issued dbAna baches dosArchivos
      { envOk with falla := fun _ => true }).2.1 rfl).1⟩

/-! ## The name of a stored upload (C10) -/

theorem digitChar_ne_dash (k : Nat) (h : k < 10) : Nat.digitChar k ≠ '-' := by
  interval_cases k <;> decide

theorem digitChar_value (k : Nat) (h : k < 10) : (Nat.digitChar k).toNat - 48 = k := by
  interval_cases k <;> rfl

theorem toDigitsCore_no_dash (fuel : Nat) : ∀ (n : Nat) (ds : List Char),
    (∀ c ∈ ds, c ≠ '-') → ∀ c ∈ Nat.toDigitsCore 10 fuel n ds, c ≠ '-' := by
  induction fuel with
  | zero => intro n ds h; simpa [Nat.toDigitsCore] using h
  | succ fuel ih =>
    intro n ds h
    have hd : ∀ c ∈ Nat.digitChar (n % 10) :: ds, c ≠ '-' := by
      intro c hc
      rcases List.mem_cons.1 hc with rfl | hc
      · exact digitChar_ne_dash _ (Nat.mod_lt _ (by decide))
      · exact h c hc
    simp only [Nat.toDigitsCore]
    split_ifs
    · exact hd
    · exact ih _ _ hd

theorem valorDecimal_toDigitsCore (fuel : Nat) : ∀ (n : Nat) (ds : List Char), n < fuel →
    valorDecimal (Nat.toDigitsCore 10 fuel n ds) 0 = valorDecimal ds n := by
  induction fuel with
  | zero => intro n ds h; omega
  | succ fuel ih =>
    intro n ds h
    simp only [Nat.toDigitsCore]
    have hv : (Nat.digitChar (n % 10)).toNat - 48 = n % 10 :=
      digitChar_value _ (Nat.mod_lt _ (by decide))
    split_ifs with h0
    · simp only [valorDecimal, List.foldl_cons, hv]
      congr 1
      omega
    · rw [ih _ _ (by omega)]
      simp only [valorDecimal, List.foldl_cons, hv]
      congr 1
      omega

theorem toDigits_injective (a b : Nat) (h : Nat.toDigits 10 a = Nat.toDigits 10 b) : a = b := by
  have ha := valorDecimal_toDigitsCore (a + 1) a [] (by omega)
  have hb := valorDecimal_toDigitsCore (b + 1) b [] (by omega)
  simp only [Nat.toDigits] at h
  rw [h, hb] at ha
  simpa [valorDecimal] using ha.symm

theorem append_sep_inj {α : Type} (s : α) : ∀ (xs xs2 ys ys2 : List α),
    s ∉ xs → s ∉ xs2 → xs ++ s :: ys = xs2 ++ s :: ys2 → xs = xs2 ∧ ys = ys2 := by
  intro xs
  induction xs with
  | nil =>
    intro xs2 ys ys2 _ h2 h
    cases xs2 with
    | nil => simpa using h
    | cons x t =>
      simp only [List.nil_append, List.cons_append, List.cons.injEq] at h
      exact absurd (h.1 ▸ List.mem_cons_self _ _) h2
  | cons x t ih =>
    intro xs2 ys ys2 h1 h2 h
    cases xs2 with
    | nil =>
      simp only [List.nil_append, List.cons_append, List.cons.injEq] at h
      exact absurd (h.1 ▸ List.mem_cons_self _ _) h1
    | cons x2 t2 =>
      simp only [List.cons_append, List.cons.injEq] at h
      obtain ⟨hx, ht⟩ := h
      have := ih t2 ys ys2 (fun hm => h1 (List.mem_cons_of_mem _ hm))
        (fun hm => h2 (List.mem_cons_of_mem _ hm)) ht
      exact ⟨by rw [hx, this.1], this.2⟩

theorem filename_data (t : Nat) (n : String) :
    (filename t n).data = Nat.toDigits 10 t ++ '-' :: n.data := by
  simp [filename, toString, Nat.repr, String.data_append]
  rfl

/-- C10: the stored name is the decimal digits of the timestamp, a `-`, and the original
name, and two stored names are equal exactly when the timestamps are equal and the original
names are equal. -/
theorem filename_injective (t1 t2 : Nat) (n1 n2 : String) :
    (filename t1 n1).data = Nat.toDigits 10 t1 ++ '-' :: n1.data ∧
    (filename t1 n1 = filename t2 n2 ↔ t1 = t2 ∧ n1 = n2) := by
  refine ⟨filename_data t1 n1, ?_, ?_⟩
  · intro h
    have hd := congrArg String.data h
    rw [filename_data, filename_data] at hd
    have hno : ∀ t, '-' ∉ Nat.toDigits 10 t := fun t hm =>
      toDigitsCore_no_dash _ _ [] (by simp) _ hm rfl
    obtain ⟨h1, h2⟩ := append_sep_inj '-' _ _ _ _ (hno t1) (hno t2) hd
    exact ⟨toDigits_injective _ _ h1, String.ext h2⟩
  · rintro ⟨rfl, rfl⟩
    rfl

theorem filename_injective_witness :
    filename 1700000000000 "foto.png" = "1700000000000-foto.png" ∧
    (1700000000000 = 1700000000000 ∧ "foto.png" = "foto.png") :=
  ⟨by decide,
   (filename_injective 1700000000000 1700000000000 "foto.png" "foto.png").2.1 rfl⟩

/-! ## Publication listing (C6, C7) -/

theorem sqlEq_int (k : Val) (n : Nat) : k.sqlEq (.int n) = true ↔ k = .int n := by
  cases k <;> simp [Val.sqlEq]

theorem sqlEq_null (v : Val) : Val.sqlEq .null v = false := by
  cases v <;> rfl

/-- A key selects at most one row of a table whose ids are distinct. -/
theorem filter_key_length_le_one {α : Type} (f : α → Nat) (k : Val) : ∀ (l : List α),
    (l.map f).Nodup → (l.filter (fun x => k.sqlEq (.int (f x)))).length ≤ 1 := by
  intro l
  induction l with
  | nil => intro _; simp
  | cons a t ih =>
    intro hnd
    rw [List.map_cons, List.nodup_cons] at hnd
    by_cases hk : k.sqlEq (.int (f a)) = true
    · have ht : t.filter (fun x => k.sqlEq (.int (f x))) = [] := by
        rw [List.filter_eq_nil_iff]
        intro x hx hkx
        rw [sqlEq_int] at hk hkx
        rw [hk] at hkx
        injection hkx with hfx
        exact hnd.1 (hfx ▸ List.mem_map_of_mem f hx)
      simp [List.filter_cons, hk, ht]
    · have := ih hnd.2
      simpa [List.filter_cons, hk] using this

theorem leftJoin_singleton (t : List Lugar) (k : Val) (h : (t.map (fun l => l.id)).Nodup) :
    ∃ e, leftJoin t k = [e] := by
  have hl := filter_key_length_le_one (fun l : Lugar => l.id) k t h
  unfold leftJoin
  cases hf : t.filter (fun l => k.sqlEq (.int l.id)) with
  | nil => exact ⟨none, rfl⟩
  | cons a r =>
    rw [hf] at hl
    cases r with
    | nil => exact ⟨some a, rfl⟩
    | cons b r2 => simp at hl

theorem leftJoin_null (t : List Lugar) : leftJoin t .null = [none] := by
  have : t.filter (fun l => Val.sqlEq .null (.int l.id)) = [] := by
    rw [List.filter_eq_nil_iff]
    intro l _
    simp [sqlEq_null]
  simp [leftJoin, this]

/-- With distinct ids in `usuarios` and in the three lookup tables, the join keeps exactly
the publications whose author exists, once each and in their order. -/
theorem joinPublicaciones_map_p (db : Db)
    (hu : (db.usuarios.map (fun u => u.id)).Nodup)
    (he : (db.estados.map (fun l => l.id)).Nodup)
    (hm : (db.municipios.map (fun l => l.id)).Nodup)
    (hc : (db.colonias.map (fun l => l.id)).Nodup) :
    (joinPublicaciones db).map (fun j => j.p) = db.publicaciones.filter (autorExiste db) := by
  unfold joinPublicaciones
  induction db.publicaciones with
  | nil => rfl
  | cons p ps ih =>
    rw [List.flatMap_cons, List.map_append, ih]
    obtain ⟨e, hje⟩ := leftJoin_singleton db.estados p.estado_id he
    obtain ⟨m, hjm⟩ := leftJoin_singleton db.municipios p.municipio_id hm
    obtain ⟨c, hjc⟩ := leftJoin_singleton db.colonias p.colonia_id hc
    have hl := filter_key_length_le_one (fun u : Usuario => u.id) p.usuario_id db.usuarios hu
    cases hf : db.usuarios.filter (fun u => p.usuario_id.sqlEq (.int u.id)) with
    | nil =>
      have hex : autorExiste db p = false := by
        rw [List.filter_eq_nil_iff] at hf
        simp only [autorExiste, List.any_eq_false]
        intro u hu2
        exact hf u hu2
      simp [List.filter_cons, hex]
    | cons u r =>
      have hex : autorExiste db p = true := by
        have hmem : u ∈ db.usuarios.filter (fun u => p.usuario_id.sqlEq (.int u.id)) := by
          rw [hf]; exact List.mem_cons_self _ _
        rw [List.mem_filter] at hmem
        simp only [autorExiste, List.any_eq_true]
        exact ⟨u, hmem.1, hmem.2⟩
      rw [hf] at hl
      cases r with
      | cons b r2 => simp at hl
      | nil => simp [List.filter_cons, hex, hje, hjm, hjc]

theorem mem_leftJoin (t : List Lugar) (k : Val) (e : Option Lugar) (h : e ∈ leftJoin t k)
    (l : Lugar) (hl : e = some l) : l ∈ t ∧ k = .int l.id := by
  unfold leftJoin at h
  cases hf : t.filter (fun l => k.sqlEq (.int l.id)) with
  | nil =>
    rw [hf] at h
    simp only [List.mem_singleton] at h
    rw [h] at hl
    cases hl
  | cons a r =>
    rw [hf] at h
    simp only [List.mem_map] at h
    obtain ⟨x, hx, hxe⟩ := h
    rw [hl] at hxe
    injection hxe with hxe
    subst hxe
    rw [← hf, List.mem_filter, sqlEq_int] at hx
    exact hx

theorem mem_joinPublicaciones (db : Db) (j : Joined) :
    j ∈ joinPublicaciones db ↔
      j.p ∈ db.publicaciones ∧ j.u ∈ db.usuarios ∧ j.p.usuario_id = .int j.u.id ∧
      j.e ∈ leftJoin db.estados j.p.estado_id ∧ j.m ∈ leftJoin db.municipios j.p.municipio_id ∧
      j.c ∈ leftJoin db.colonias j.p.colonia_id := by
  obtain ⟨p, u, e, m, c⟩ := j
  simp only [joinPublicaciones, List.mem_flatMap, List.mem_map, List.mem_filter, sqlEq_int,
    Joined.mk.injEq]
  constructor
  · rintro ⟨p2, hp, u2, ⟨hu, hpu⟩, e2, he, m2, hm, c2, hc, rfl, rfl, rfl, rfl, rfl⟩
    exact ⟨hp, hu, hpu, he, hm, hc⟩
  · rintro ⟨hp, hu, hpu, he, hm, hc⟩
    exact ⟨p, hp, u, ⟨hu, hpu⟩, e, he, m, hm, c, hc, rfl, rfl, rfl, rfl, rfl⟩

set_option maxRecDepth 100000 in
/-- The query of the listing, when it does not fail. -/
theorem getPublicaciones_ok (db : Db) (env : Env) (hq : env.falla 0 = false) :
    (getPublicaciones db env).responses = [⟨200, .rows (selectPublicaciones db)⟩] := by
  simp only [getPublicaciones, Db.query, hq, Bool.false_eq_true, if_false,
    exec_selectPublicaciones]

/-- C6, as stated, fails: after Ana's profile is deleted (the delete succeeds and her two
publications stay in the table), the listing answers 200 with no record at all: the author
is attached by an inner join, and a publication whose author row is missing is left out. -/
theorem listing_leaves_out_orphans :
    (deletePerfil dbPublicada 1 envOk).responses
      = [⟨200, .mensaje "Perfil eliminado correctamente"⟩] ∧
    (deletePerfil dbPublicada 1 envOk).db.publicaciones.length = 2 ∧
    (getPublicaciones (deletePerfil dbPublicada 1 envOk).db envOk).responses
      = [⟨200, .rows []⟩] ∧
    (getPublicaciones dbPublicada envOk).responses.map
        (fun r => match r.body with | .rows rs => rs.length | _ => 0) = [2] := by
  refine ⟨rfl, rfl, ?_, ?_⟩
  · rw [getPublicaciones_ok _ _ rfl]; rfl
  · rw [getPublicaciones_ok _ _ rfl]; rfl

/-- C6, amended: when the query succeeds and the ids are distinct in `usuarios`, `estados`,
`municipios` and `colonias` (they are primary keys), the listing holds exactly one record for
each stored publication whose author row exists (the author is attached by an inner join),
and none for the others; the three lookup names are attached by left joins, so a missing
region, municipality or neighbourhood row leaves no publication out: each record joins its
publication with its author and, for each lookup, with the row the publication refers to
or with nothing. -/
theorem getPublicaciones_records (db : Db) (env : Env) (hq : env.falla 0 = false)
    (hu : (db.usuarios.map (fun u => u.id)).Nodup)
    (he : (db.estados.map (fun l => l.id)).Nodup)
    (hm : (db.municipios.map (fun l => l.id)).Nodup)
    (hc : (db.colonias.map (fun l => l.id)).Nodup) :
    (getPublicaciones db env).responses
      = [⟨200, .rows (((joinPublicaciones db).insertionSort masReciente).map Joined.toRow)⟩] ∧
    (((joinPublicaciones db).insertionSort masReciente).map (fun j => j.p)).Perm
      (db.publicaciones.filter (autorExiste db)) ∧
    ∀ j ∈ (joinPublicaciones db).insertionSort masReciente,
      j.u ∈ db.usuarios ∧ j.p.usuario_id = .int j.u.id ∧
      (∀ l, j.e = some l → l ∈ db.estados ∧ j.p.estado_id = .int l.id) ∧
      (∀ l, j.m = some l → l ∈ db.municipios ∧ j.p.municipio_id = .int l.id) ∧
      (∀ l, j.c = some l → l ∈ db.colonias ∧ j.p.colonia_id = .int l.id) := by
  refine ⟨getPublicaciones_ok db env hq, ?_, ?_⟩
  · rw [← joinPublicaciones_map_p db hu he hm hc]
    exact (List.perm_insertionSort masReciente _).map _
  · intro j hj
    have hj2 : j ∈ joinPublicaciones db := (List.perm_insertionSort masReciente _).subset hj
    rw [mem_joinPublicaciones] at hj2
    obtain ⟨_, hju, hpu, hje, hjm, hjc⟩ := hj2
    exact ⟨hju, hpu, mem_leftJoin _ _ _ hje, mem_leftJoin _ _ _ hjm, mem_leftJoin _ _ _ hjc⟩

theorem getPublicaciones_records_witness :
    (((joinPublicaciones dbPublicada).insertionSort masReciente).map (fun j => j.p)).Perm
      (dbPublicada.publicaciones.filter (autorExiste dbPublicada)) :=
  (getPublicaciones_records dbPublicada envOk rfl (by decide) (by decide) (by decide)
    (by decide)).2.1

/-- C7: when the query succeeds, the records of the listing are in non-increasing order of
creation timestamp, and every publication whose author row exists and whose region,
municipality and neighbourhood ids are null has its record in the listing, with the
author's name and with `estado`, `municipio` and `colonia` null. -/
theorem getPublicaciones_sorted (db : Db) (env : Env) (hq : env.falla 0 = false) :
    (getPublicaciones db env).responses = [⟨200, .rows (selectPublicaciones db)⟩] ∧
    (selectPublicaciones db).Pairwise (fun r s => fechaDe s ≤ fechaDe r) ∧
    ∀ p ∈ db.publicaciones, ∀ u ∈ db.usuarios, p.usuario_id = .int u.id →
      p.estado_id = .null → p.municipio_id = .null → p.colonia_id = .null →
      [("id", .int p.id), ("titulo", p.titulo), ("descripcion", p.descripcion),
       ("prioridad", p.prioridad), ("fecha_publicacion", .int p.fecha_publicacion),
       ("usuario", u.nombre), ("estado", .null), ("municipio", .null), ("colonia", .null)]
        ∈ selectPublicaciones db := by
  refine ⟨getPublicaciones_ok db env hq, ?_, ?_⟩
  · unfold selectPublicaciones
    rw [List.pairwise_map]
    exact List.sorted_insertionSort masReciente _
  · intro p hp u hu hpu hpe hpm hpc
    have hj : (⟨p, u, none, none, none⟩ : Joined) ∈ joinPublicaciones db := by
      rw [mem_joinPublicaciones]
      simp only [hpe, hpm, hpc, leftJoin_null, List.mem_singleton]
      exact ⟨hp, hu, hpu, trivial, trivial, trivial⟩
    have hs : (⟨p, u, none, none, none⟩ : Joined) ∈
        (joinPublicaciones db).insertionSort masReciente :=
      (List.perm_insertionSort masReciente _).symm.subset hj
    exact List.mem_map_of_mem Joined.toRow hs

theorem getPublicaciones_sorted_witness :
    (selectPublicaciones dbPublicada).map fechaDe = [200, 100] ∧
    [("id", .int 1), ("titulo", .str "Bache"), ("descripcion", .str "En la esquina"),
     ("prioridad", .str "alta"), ("fecha_publicacion", .int 100),
     ("usuario", .str "Ana"), ("estado", .null), ("municipio", .null), ("colonia", .null)]
      ∈ selectPublicaciones dbPublicada :=
  ⟨by decide,
   (getPublicaciones_sorted dbPublicada envOk rfl).2.2
     ⟨1, .int 1, .str "Bache", .str "En la esquina", .str "alta", .null, .null, .null, 100⟩
     (by decide)
     ⟨1, .str "Ana", .str "Lee", .str "ana@x.com", .str "555", .str "CDMX", .str "$secret1"⟩
     (by decide) rfl rfl rfl rfl⟩

end Trifix
